import Mathlib

/-!
Shallow embedding of the gitopper agent (main.go, ssh.go, the Config record)
together with the parts of the data model that live outside the provided
sources and are therefore modelled from the specification document.
Pure Go functions become Lean functions; the external collaborators
(git, package installer, bind mounts, systemctl, the file system, listeners)
become explicit oracle inputs, and the handlers return the session outcome
as a value.
-/

/-- Allowed per-service states: OK, FREEZE, ROLLBACK, BROKEN. -/
inductive State
  | ok
  | freeze
  | rollback
  | broken
deriving DecidableEq, Repr

/-- Modelled from the spec: the display names of the states. -/
def State.display : State → String
  | .ok => "OK"
  | .freeze => "FREEZE"
  | .rollback => "ROLLBACK"
  | .broken => "BROKEN"

/-- Modelled from the spec: one `dirs` entry of a Service: a source path
relative to the sparse sub-directory, an absolute target, an optional mode. -/
structure Dir where
  source : String := ""
  target : String := ""
  mode : Nat := 0
deriving DecidableEq, Repr

/-- Modelled from the spec: the Service record (its Go definition is not under
src/; src only uses it). Attributes follow the data model of the spec; the
transient ServiceState tuple (state, info, change-time, hash) is inlined as
fields, with wall-clock time abstracted to a counter. -/
structure Service where
  machine : String := ""
  upstream : String := ""
  branch : String := ""
  service : String := ""
  mount : String := ""
  pkg : String := ""
  action : String := ""
  user : String := ""
  group : String := ""
  dirs : List Dir := []
  state : State := State.ok
  info : String := ""
  change : Nat := 0
  hash : String := ""
deriving DecidableEq, Repr

/-- Modelled from the spec: SetState(state, info) updates state and info and
bumps the change-time (time abstracted as an increasing counter). -/
def Service.setState (s : Service) (st : State) (i : String) : Service :=
  { s with state := st, info := i, change := s.change + 1 }

/-- Modelled from the spec: forMe(hosts) holds iff the machine of the Service
is a member of the host identity set. -/
def Service.forMe (s : Service) (hosts : List String) : Bool :=
  hosts.contains s.machine

/-- Modelled from the spec: merge overlays the Global template onto a Service:
an explicit (non-empty) field of the Service wins, otherwise Global supplies. -/
def Service.merge (s g : Service) : Service :=
  { s with
    upstream := if s.upstream = "" then g.upstream else s.upstream,
    branch := if s.branch = "" then g.branch else s.branch,
    mount := if s.mount = "" then g.mount else s.mount,
    user := if s.user = "" then g.user else s.user,
    group := if s.group = "" then g.group else s.group }

/-- Config holds the gitopper config file: the Global template and the
Services (the Config record of src). -/
structure Config where
  global : Service := {}
  services : List Service := []
deriving DecidableEq, Repr

/-- main.go builds the host identity set as the OS hostname followed by the
aliases given with the -h flag. -/
def hostIdentitySet (hostname : String) (aliases : List String) : List String :=
  hostname :: aliases

/-- The http.StatusText values used by ssh.go. -/
def statusText (code : Nat) : String :=
  if code = 200 then "OK"
  else if code = 400 then "Bad Request"
  else if code = 404 then "Not Found"
  else if code = 406 then "Not Acceptable"
  else if code = 500 then "Internal Server Error"
  else ""

/-- proto.ListMachine: one row of the list/machine reply. -/
structure ListMachine where
  machine : String
  actual : String
deriving DecidableEq, Repr

/-- proto.ListService: one row of the list/service reply. -/
structure ListServiceEntry where
  service : String
  hash : String
  state : String
  stateInfo : String
  stateChange : String
deriving DecidableEq, Repr

/-- Structured payloads that ssh.go marshals with encoding/json (the stdlib
rendering to bytes is abstracted; a json reply carries the document). -/
inductive Payload
  | machines (xs : List ListMachine)
  | services (xs : List ListServiceEntry)
deriving DecidableEq, Repr

/-- What a handler wrote to the session before exiting. -/
inductive Reply
  | empty
  | text (s : String)
  | json (p : Payload)
deriving DecidableEq, Repr

/-- Outcome of one control-plane session: the reply, the exit status sent to
the client (gliderlabs/ssh sends status 0 when a handler returns without an
explicit Exit), and the services after any SetState the handler performed. -/
structure SessionResult where
  reply : Reply
  exitStatus : Nat
  services : List Service
deriving DecidableEq, Repr

/-- Go stdlib modelled: a byte is a hex digit for encoding/hex. -/
def isHexDigit (c : Char) : Bool :=
  c.isDigit || ('a' ≤ c && c ≤ 'f') || ('A' ≤ c && c ≤ 'F')

/-- Go stdlib modelled: hex.DecodeString succeeds iff the input has even
length and contains only hex digits. -/
def hexDecodeOk (s : String) : Bool :=
  decide (s.length % 2 = 0) && s.data.all isHexDigit

/-- Go stdlib modelled: time.Time.Format(time.RFC1123); the rendering is
abstracted to printing the abstract change counter. -/
def rfc1123 (t : Nat) : String := toString t

/-- Go stdlib modelled: strings.HasPrefix. -/
def beginsWith (s pre : String) : Bool :=
  pre.data.isPrefixOf s.data

/-- ListMachines (ssh.go): reply with machine and actual hostname for every
configured service; always marshals and exits 0. -/
def ListMachines (c : Config) (hostname : String) : SessionResult :=
  { reply := Reply.json (Payload.machines
      (c.services.map (fun s => { machine := s.machine, actual := hostname }))),
    exitStatus := 0,
    services := c.services }

/-- One reply row for a service (ssh.go ListService). -/
def listServiceEntry (s : Service) : ListServiceEntry :=
  { service := s.service, hash := s.hash, state := s.state.display,
    stateInfo := s.info, stateChange := rfc1123 s.change }

/-- ListService (ssh.go): with no argument list every service of this host;
with an argument list every service of this host carrying that name (the
break in the Go source only leaves the switch, not the loop, so all matches
are appended); an empty result is 404 Not Found. -/
def ListService (c : Config) (hosts : List String) (cmd : List String) : SessionResult :=
  let target := match cmd with
    | _ :: t :: _ => t
    | _ => ""
  let xs := c.services.filter (fun s => s.forMe hosts && (target == "" || s.service == target))
  if xs.isEmpty then
    { reply := Reply.text (statusText 404), exitStatus := 404, services := c.services }
  else
    { reply := Reply.json (Payload.services (xs.map listServiceEntry)),
      exitStatus := 0, services := c.services }

/-- The loop of freezeStateService and RollbackService (ssh.go): walk the
services, skip those not for this host, and SetState on the first one whose
name equals the target; none gives back the unchanged list. -/
def setFirstMatch (services : List Service) (hosts : List String) (target : String)
    (st : State) (i : String) : Option (List Service) :=
  match services with
  | [] => none
  | s :: rest =>
    if s.forMe hosts && s.service == target then
      some (s.setState st i :: rest)
    else
      (setFirstMatch rest hosts target st i).map (fun l => s :: l)

/-- freezeStateService (ssh.go): fewer than two tokens exits 406 with no
reply; otherwise SetState(state, "") on the first matching service of this
host replies OK and exits 0, and no match is 404 Not Found. -/
def freezeStateService (c : Config) (cmd : List String) (st : State)
    (hosts : List String) : SessionResult :=
  match cmd with
  | _ :: target :: _ =>
    match setFirstMatch c.services hosts target st "" with
    | some svcs => { reply := Reply.text (statusText 200), exitStatus := 0, services := svcs }
    | none => { reply := Reply.text (statusText 404), exitStatus := 404, services := c.services }
  | _ => { reply := Reply.empty, exitStatus := 406, services := c.services }

/-- FreezeService (ssh.go). -/
def FreezeService (c : Config) (cmd : List String) (hosts : List String) : SessionResult :=
  freezeStateService c cmd State.freeze hosts

/-- UnfreezeService (ssh.go). -/
def UnfreezeService (c : Config) (cmd : List String) (hosts : List String) : SessionResult :=
  freezeStateService c cmd State.ok hosts

/-- RollbackService (ssh.go): fewer than three tokens returns silently (so
the session ends with status 0 and no reply); a hash that hex.DecodeString
rejects is 406 Not Acceptable with no state change; otherwise
SetState(ROLLBACK, hash) on the first matching service of this host, or 404. -/
def RollbackService (c : Config) (cmd : List String) (hosts : List String) : SessionResult :=
  match cmd with
  | _ :: target :: hash :: _ =>
    if hexDecodeOk hash = false then
      { reply := Reply.text (statusText 406 ++ ", not a valid git hash: " ++ hash),
        exitStatus := 406, services := c.services }
    else
      match setFirstMatch c.services hosts target State.rollback hash with
      | some svcs => { reply := Reply.text (statusText 200), exitStatus := 0, services := svcs }
      | none => { reply := Reply.text (statusText 404), exitStatus := 404, services := c.services }
  | _ => { reply := Reply.empty, exitStatus := 0, services := c.services }

/-- The five route names of ssh.go. -/
inductive Route
  | listMachines
  | listService
  | freeze
  | unfreeze
  | rollback
deriving DecidableEq, Repr

/-- The routes table of ssh.go. Go iterates the map in arbitrary order; the
route names are mutually non-prefixed, so at most one entry can match a
given first token and a list in fixed order is an equivalent embedding. -/
def routes : List (String × Route) :=
  [("/list/machine", Route.listMachines),
   ("/list/service", Route.listService),
   ("/state/freeze", Route.freeze),
   ("/state/unfreeze", Route.unfreeze),
   ("/state/rollback", Route.rollback)]

/-- Route lookup of newRouter (ssh.go): the first token of the command is
matched by strings.HasPrefix against each route name. -/
def findRoute (tok : String) : Option Route :=
  (routes.find? (fun p => beginsWith tok p.1)).map (fun p => p.2)

/-- Dispatch a matched route to its handler (the routes map of ssh.go). -/
def runRoute : Route → Config → List String → List String → String → SessionResult
  | Route.listMachines, c, _, _, hn => ListMachines c hn
  | Route.listService, c, cmd, hosts, _ => ListService c hosts cmd
  | Route.freeze, c, cmd, hosts, _ => FreezeService c cmd hosts
  | Route.unfreeze, c, cmd, hosts, _ => UnfreezeService c cmd hosts
  | Route.rollback, c, cmd, hosts, _ => RollbackService c cmd hosts

/-- newRouter (ssh.go): an empty command is 400 Bad Request; otherwise the
first token selects a route by prefix, and no route is 404 Not Found. -/
def handleSession (c : Config) (hosts : List String) (hostname : String)
    (cmd : List String) : SessionResult :=
  match cmd with
  | [] => { reply := Reply.text (statusText 400), exitStatus := 400, services := c.services }
  | tok :: _ =>
    match findRoute tok with
    | some r => runRoute r c cmd hosts hostname
    | none => { reply := Reply.text (statusText 404), exitStatus := 404, services := c.services }

/-- Outcomes of the external collaborators consulted by the startup loop of
run (main.go): package install, git Checkout, bind mounts (number of new
mounts on success), systemctl; none or ok means success. -/
structure StartupEnv where
  installErr : Service → Option String
  checkoutErr : Service → Option String
  bindmountRes : Service → Except String Nat
  systemctlErr : Service → Option String
deriving Inhabited

/-- The loop body of run (main.go) after the Checkout step, for the merged
service: bind mounts, then systemctl if any mount is new; a Checkout or
bind-mount failure sets the state to BROKEN and spawns no worker, a
systemctl failure sets BROKEN but still spawns the worker. -/
def startupAfterCheckout (env : StartupEnv) (s : Service) : Service × Bool :=
  match env.bindmountRes s with
  | Except.error e =>
    (s.setState State.broken ("error setting up bind mounts repo " ++ s.upstream ++ ": " ++ e), false)
  | Except.ok mounts =>
    if 0 < mounts then
      match env.systemctlErr s with
      | some e => (s.setState State.broken ("error running systemctl " ++ s.upstream ++ ": " ++ e), true)
      | none => (s, true)
    else (s, true)

/-- The loop body of run (main.go) for a service that passed the host filter:
merge with Global; a failing package install skips the service without a
state change; a failing Checkout sets BROKEN; then the mount and unit steps.
The Bool says whether a trackUpstream worker goroutine was spawned. -/
def startupService (env : StartupEnv) (global serv : Service) : Service × Bool :=
  let s := serv.merge global
  if s.pkg ≠ "" then
    match env.installErr s with
    | some _ => (s, false)
    | none =>
      match env.checkoutErr s with
      | some e => (s.setState State.broken ("error pulling " ++ s.upstream ++ ": " ++ e), false)
      | none => startupAfterCheckout env s
  else
    match env.checkoutErr s with
    | some e => (s.setState State.broken ("error pulling " ++ s.upstream ++ ": " ++ e), false)
    | none => startupAfterCheckout env s

/-- One iteration of the startup loop of run (main.go): services that fail
the host filter are skipped untouched. -/
def startupStep (env : StartupEnv) (global : Service) (hosts : List String)
    (serv : Service) : Service × Bool :=
  if serv.forMe hosts then startupService env global serv else (serv, false)

/-- What the startup loop of run (main.go) produced: the services after any
SetState, the services for which a worker goroutine was spawned, and servCnt,
the number of services that passed the host filter. -/
structure StartupResult where
  services : List Service
  workers : List Service
  servCnt : Nat
deriving DecidableEq, Repr

/-- The whole startup loop of run (main.go). Every service is processed
independently; a per-service failure never aborts the loop. -/
def runStartup (env : StartupEnv) (global : Service) (hosts : List String)
    (services : List Service) : StartupResult :=
  let stepped := services.map (startupStep env global hosts)
  { services := stepped.map (fun p => p.1),
    workers := (stepped.filter (fun p => p.2)).map (fun p => p.1),
    servCnt := (services.filter (fun v => v.forMe hosts)).length }

/-- The signals run (main.go) subscribes to. -/
inductive Signal
  | sigint
  | sigterm
  | sighup
deriving DecidableEq, Repr

/-- The errors run (main.go) can return: the named sentinels, the wrapped
RepoPullError of bootstrapping, the wrapped config errors, key loading and
listener errors, and the ErrHUP sentinel of a hangup shutdown. -/
inductive RunErr
  | notRoot
  | noConfig
  | repoPull (machine upstream underlying : String)
  | readConfig (msg : String)
  | parseErr (msg : String)
  | validateErr (msg : String)
  | keyErr (msg : String)
  | listenErr (msg : String)
  | hup
deriving DecidableEq, Repr

/-- ExecContext (main.go) with the flag defaults of RegisterFlags. -/
structure ExecContext where
  hosts : List String := []
  configSource : String := ""
  sAddr : String := ":2222"
  mAddr : String := ":9222"
  debug : Bool := false
  restart : Bool := false
  upstream : String := ""
  dir : String := "gitopper"
  branch : String := "main"
  mount : String := ""
  pull : Bool := false
deriving DecidableEq, Repr

/-- The environment run (main.go) consults: effective uid, OS hostname, the
bootstrap git operations, the file system read of the config, the TOML
parse, Valid, key loading and the two listeners. -/
structure RunWorld where
  euid : Nat
  hostname : String
  bootCheckoutErr : Option String
  bootPullErr : Option String
  readConfig : String → Except String String
  parseConfig : String → Except String Config
  validateErr : Config → Option String
  keyLoadErr : Option String
  sshListenErr : Option String
  monListenErr : Option String
  startup : StartupEnv

/-- Go stdlib modelled: path.Join of two elements for the already-clean
paths used here; empty elements are dropped, path cleaning is not modelled. -/
def pathJoin (a b : String) : String :=
  if a = "" then b else if b = "" then a else a ++ "/" ++ b

/-- Modelled from the spec: selfService (not under src/) synthesizes the
bootstrap self-Service from the -U, -B, -M and -D flags when a bootstrap
upstream is supplied, with machine set to this host so that it is reconciled
here; with no upstream it returns none. -/
def selfService (hostname upstream branch mount dir : String) : Option Service :=
  if upstream = "" then none
  else some { machine := hostname, upstream := upstream, branch := branch,
              mount := mount, service := dir }

/-- The bootstrapping block of run (main.go): when a self-Service exists,
Checkout it (a failure is a RepoPullError), optionally Pull, and re-target
ConfigSource to Join(Join(Join(self.Mount, self.Service), exec.Dir),
exec.ConfigSource) before the config is read and parsed. -/
def bootstrapPhase (exec : ExecContext) (w : RunWorld) :
    Except RunErr (ExecContext × Option Service) :=
  match selfService w.hostname exec.upstream exec.branch exec.mount exec.dir with
  | none => Except.ok (exec, none)
  | some self =>
    match w.bootCheckoutErr with
    | some e => Except.error (RunErr.repoPull self.machine self.upstream e)
    | none =>
      let newSource := pathJoin (pathJoin (pathJoin self.mount self.service) exec.dir) exec.configSource
      let retargeted := { exec with configSource := newSource }
      if exec.pull then
        match w.bootPullErr with
        | some e => Except.error (RunErr.repoPull self.machine self.upstream e)
        | none => Except.ok (retargeted, some self)
      else Except.ok (retargeted, some self)

/-- The startup phases of run (main.go) before the per-service loop, in
source order: euid check, -c check, bootstrap, read config, parse config,
Valid, append the self-Service, load keys, start the ssh and metrics
listeners. Returns the config whose services the loop iterates. -/
def startupPhases (exec : ExecContext) (w : RunWorld) :
    Except RunErr (Config × ExecContext) :=
  if w.euid ≠ 0 then Except.error RunErr.notRoot
  else if exec.configSource = "" then Except.error RunErr.noConfig
  else
    match bootstrapPhase exec w with
    | Except.error e => Except.error e
    | Except.ok (exec2, selfOpt) =>
      match w.readConfig exec2.configSource with
      | Except.error m => Except.error (RunErr.readConfig ("reading config: " ++ m))
      | Except.ok doc =>
        match w.parseConfig doc with
        | Except.error m => Except.error (RunErr.parseErr ("parsing config: " ++ m))
        | Except.ok c =>
          match w.validateErr c with
          | some m => Except.error (RunErr.validateErr ("validating config: " ++ m))
          | none =>
            let c2 := match selfOpt with
              | some self => { c with services := c.services ++ [self] }
              | none => c
            match w.keyLoadErr with
            | some m => Except.error (RunErr.keyErr m)
            | none =>
              match w.sshListenErr with
              | some m => Except.error (RunErr.listenErr m)
              | none =>
                match w.monListenErr with
                | some m => Except.error (RunErr.listenErr m)
                | none => Except.ok (c2, exec2)

/-- How run (main.go) ended: a startup failure with its error; the early nil
return when no service matched this host (before the signal wait); or a
signal-triggered shutdown after the workers were spawned. -/
inductive RunOutcome
  | startupFailure (e : RunErr)
  | noServices (r : StartupResult)
  | shutdown (r : StartupResult) (sig : Signal)
deriving DecidableEq, Repr

/-- run (main.go) as a function of its environment and of the shutdown
signal that eventually arrives: startup phases, the per-service loop, the
servCnt == 0 early return, else the signal wait. -/
def runModel (exec : ExecContext) (w : RunWorld) (sig : Signal) : RunOutcome :=
  match startupPhases exec w with
  | Except.error e => RunOutcome.startupFailure e
  | Except.ok (c2, exec2) =>
    if (runStartup w.startup c2.global exec2.hosts c2.services).servCnt = 0 then
      RunOutcome.noServices (runStartup w.startup c2.global exec2.hosts c2.services)
    else RunOutcome.shutdown (runStartup w.startup c2.global exec2.hosts c2.services) sig

/-- The error value run (main.go) returns for an outcome: the startup error,
nil on the no-services early return, and on shutdown the ErrHUP sentinel
exactly when the received signal was SIGHUP (the hup channel is closed only
then), else nil. -/
def runResult : RunOutcome → Option RunErr
  | RunOutcome.startupFailure e => some e
  | RunOutcome.noServices _ => none
  | RunOutcome.shutdown _ sig => if sig = Signal.sighup then some RunErr.hup else none

/-- The exit status of main (main.go): 0 when run returns nil, 2 on the
ErrHUP sentinel (so systemd restarts the process), and 1 otherwise because
log.Fatal exits with status 1. -/
def exitCode : Option RunErr → Nat
  | none => 0
  | some RunErr.hup => 2
  | some _ => 1

/-- The -d flag default of the older main.go in src: "30s". -/
def flagDurationDefault : String := "30s"

/-- Go stdlib modelled: time.ParseDuration of the default "30s", in
nanoseconds. -/
def defaultDurationNanos : Nat := 30 * 1000000000

/-- Five seconds in nanoseconds (the lower bound of the older main.go). -/
def fiveSecondsNanos : Nat := 5 * 1000000000

/-- The duration gate of the older main.go in src: log.Fatal when the parsed
-d duration is below five seconds. -/
def durationFatal (d : Nat) : Bool := d < fiveSecondsNanos

/-- The older main.go in src: when the duration gate passes, every started
puller ticks with the -d duration (merge passes the flag duration through as
the tick period, modelled from the spec); when the gate trips, startup is
fatal and none is returned. -/
def oldMainWorkers (d : Nat) (services : List Service) : Option (List (Service × Nat)) :=
  if durationFatal d then none else some (services.map (fun s => (s, d)))

/-- A startup environment in which every collaborator succeeds. -/
def okStartupEnv : StartupEnv :=
  { installErr := fun _ => none, checkoutErr := fun _ => none,
    bindmountRes := fun _ => Except.ok 0, systemctlErr := fun _ => none }

/-- A startup environment whose git Checkout always fails. -/
def checkoutFailEnv : StartupEnv :=
  { okStartupEnv with checkoutErr := fun _ => some "connection refused" }

/-- A startup environment whose package install always fails. -/
def installFailEnv : StartupEnv :=
  { okStartupEnv with installErr := fun _ => some "package not found" }

/-- A run environment in which every external step succeeds and the parsed
config is empty. -/
def emptyWorld : RunWorld :=
  { euid := 0, hostname := "h1", bootCheckoutErr := none, bootPullErr := none,
    readConfig := fun _ => Except.ok "", parseConfig := fun _ => Except.ok {},
    validateErr := fun _ => none, keyLoadErr := none, sshListenErr := none,
    monListenErr := none, startup := okStartupEnv }

/-- An ExecContext with only the mandatory config flag set. -/
def plainExec : ExecContext := { configSource := "gitopper.toml" }

/-- An ExecContext with the bootstrap flags set. -/
def bootExec : ExecContext :=
  { configSource := "gitopper.toml", upstream := "https://example.org/repo.git",
    mount := "/tmp/boot" }

instance {ε α : Type} [DecidableEq ε] [DecidableEq α] : DecidableEq (Except ε α) := fun a b =>
  match a, b with
  | Except.error x, Except.error y => decidable_of_iff (x = y) (by simp)
  | Except.ok x, Except.ok y => decidable_of_iff (x = y) (by simp)
  | Except.error _, Except.ok _ => isFalse (fun h => nomatch h)
  | Except.ok _, Except.error _ => isFalse (fun h => nomatch h)

/-- A sample config with one service named svc on machine m1. -/
def sampleCfg : Config :=
  { services := [{ machine := "m1", service := "svc" }] }

theorem beginsWith_excl (q : String) {t p : String} (hp : beginsWith t p = true)
    (hnp : (q.data.isPrefixOf p.data || p.data.isPrefixOf q.data) = false) :
    beginsWith t q = false := by
  cases hq : beginsWith t q
  · rfl
  · exfalso
    unfold beginsWith at hp hq
    rw [ List.isPrefixOf_iff_prefix] at hp hq
    rcases List.prefix_or_prefix_of_prefix hq hp with h | h
    · rw [← List.isPrefixOf_iff_prefix] at h
      simp [h] at hnp
    · rw [← List.isPrefixOf_iff_prefix] at h
      simp [h] at hnp

theorem findRoute_eq {tok p : String} {r : Route} (hmem : (p, r) ∈ routes)
    (hpre : beginsWith tok p = true) : findRoute tok = some r := by
  simp only [routes, List.mem_cons, List.not_mem_nil, or_false] at hmem
  rcases hmem with h | h | h | h | h <;>
    (simp only [Prod.mk.injEq] at h; obtain ⟨rfl, rfl⟩ := h)
  · simp [findRoute, routes, List.find?, hpre]
  · have h1 := beginsWith_excl "/list/machine" hpre (by decide)
    simp [findRoute, routes, List.find?, hpre, h1]
  · have h1 := beginsWith_excl "/list/machine" hpre (by decide)
    have h2 := beginsWith_excl "/list/service" hpre (by decide)
    simp [findRoute, routes, List.find?, hpre, h1, h2]
  · have h1 := beginsWith_excl "/list/machine" hpre (by decide)
    have h2 := beginsWith_excl "/list/service" hpre (by decide)
    have h3 := beginsWith_excl "/state/freeze" hpre (by decide)
    simp [findRoute, routes, List.find?, hpre, h1, h2, h3]
  · have h1 := beginsWith_excl "/list/machine" hpre (by decide)
    have h2 := beginsWith_excl "/list/service" hpre (by decide)
    have h3 := beginsWith_excl "/state/freeze" hpre (by decide)
    have h4 := beginsWith_excl "/state/unfreeze" hpre (by decide)
    simp [findRoute, routes, List.find?, hpre, h1, h2, h3, h4]

/-- C10: control-plane dispatch matches the first command token by string
prefix against the route table, not by exact equality: every first token
that has a route name as a prefix invokes that route handler rather than
returning 404. -/
theorem dispatch_by_route_start (c : Config) (hosts : List String) (hostname : String)
    (tok : String) (rest : List String) (p : String) (r : Route)
    (hmem : (p, r) ∈ routes) (hpre : beginsWith tok p = true) :
    handleSession c hosts hostname (tok :: rest) = runRoute r c (tok :: rest) hosts hostname := by
  simp [handleSession, findRoute_eq hmem hpre]

theorem dispatch_by_route_start_witness :
    handleSession {} [] "h1" ["/state/freezer"] =
      runRoute Route.freeze {} ["/state/freezer"] [] "h1" ∧
    handleSession {} [] "h1" ["/list/services"] =
      runRoute Route.listService {} ["/list/services"] [] "h1" :=
  ⟨dispatch_by_route_start {} [] "h1" "/state/freezer" [] "/state/freeze" Route.freeze
      (by decide) (by decide),
   dispatch_by_route_start {} [] "h1" "/list/services" [] "/list/service" Route.listService
      (by decide) (by decide)⟩

theorem setFirstMatch_none_iff (l : List Service) (hosts : List String) (t : String)
    (st : State) (i : String) :
    setFirstMatch l hosts t st i = none ↔
      ∀ s ∈ l, ¬(s.forMe hosts = true ∧ s.service = t) := by
  induction l with
  | nil => simp [setFirstMatch]
  | cons s rest ih =>
    by_cases h : (s.forMe hosts && s.service == t) = true
    · have hs : s.forMe hosts = true ∧ s.service = t := by
        simpa [Bool.and_eq_true, beq_iff_eq] using h
      rw [setFirstMatch, if_pos h]
      constructor
      · intro hnone
        simp at hnone
      · intro hall
        exact absurd hs (hall s (List.mem_cons_self s rest))
    · have hs : ¬(s.forMe hosts = true ∧ s.service = t) := by
        intro hc
        exact h (by simp [Bool.and_eq_true, beq_iff_eq, hc.1, hc.2])
      rw [setFirstMatch, if_neg h, Option.map_eq_none']
      constructor
      · intro hn x hx
        rcases List.mem_cons.mp hx with rfl | hx2
        · exact hs
        · exact (ih.mp hn) x hx2
      · intro hall
        exact ih.mpr (fun x hx => hall x (List.mem_cons_of_mem s hx))

theorem setFirstMatch_some (l : List Service) (hosts : List String) (t : String)
    (st : State) (i : String) (l2 : List Service)
    (h : setFirstMatch l hosts t st i = some l2) :
    ∃ (k : Nat) (hk : k < l.length),
      (l.get ⟨k, hk⟩).forMe hosts = true ∧ (l.get ⟨k, hk⟩).service = t ∧
      l2 = l.set k ((l.get ⟨k, hk⟩).setState st i) := by
  induction l generalizing l2 with
  | nil => simp [setFirstMatch] at h
  | cons s rest ih =>
    by_cases hm : (s.forMe hosts && s.service == t) = true
    · have hs : s.forMe hosts = true ∧ s.service = t := by
        simpa [Bool.and_eq_true, beq_iff_eq] using hm
      rw [setFirstMatch, if_pos hm] at h
      refine ⟨0, Nat.succ_pos _, hs.1, hs.2, ?_⟩
      have heq := Option.some.inj h
      simp [← heq]
    · rw [setFirstMatch, if_neg hm] at h
      rcases Option.map_eq_some'.mp h with ⟨l3, h3, rfl⟩
      rcases ih l3 h3 with ⟨k, hk, p1, p2, p3⟩
      refine ⟨k + 1, Nat.succ_lt_succ hk, ?_, ?_, ?_⟩
      · simpa using p1
      · simpa using p2
      · simp [p3]

theorem setFirstMatch_isSome (l : List Service) (hosts : List String) (t : String)
    (st : State) (i : String)
    (hex : ∃ s ∈ l, s.forMe hosts = true ∧ s.service = t) :
    ∃ l2, setFirstMatch l hosts t st i = some l2 := by
  cases hsm : setFirstMatch l hosts t st i with
  | some l2 => exact ⟨l2, rfl⟩
  | none =>
    rcases hex with ⟨s, hmem, hs⟩
    exact absurd hs ((setFirstMatch_none_iff l hosts t st i).mp hsm s hmem)

/-- C5: state/freeze performs SetState(FREEZE, "") and state/unfreeze
performs SetState(OK, "") on exactly the named service of this host (the
result differs from the input only at that one index, which names the target
and matches the host); when no matching service has that name the reply is
404 Not Found and the services are unchanged. -/
theorem freeze_unfreeze_sets_named (c : Config) (hosts : List String)
    (hostname target : String) :
    ((∀ s ∈ c.services, ¬(s.forMe hosts = true ∧ s.service = target)) →
      handleSession c hosts hostname ["/state/freeze", target] =
        { reply := Reply.text (statusText 404), exitStatus := 404, services := c.services } ∧
      handleSession c hosts hostname ["/state/unfreeze", target] =
        { reply := Reply.text (statusText 404), exitStatus := 404, services := c.services }) ∧
    ((∃ s ∈ c.services, s.forMe hosts = true ∧ s.service = target) →
      (∃ (k : Nat) (hk : k < c.services.length),
        (c.services.get ⟨k, hk⟩).forMe hosts = true ∧
        (c.services.get ⟨k, hk⟩).service = target ∧
        handleSession c hosts hostname ["/state/freeze", target] =
          { reply := Reply.text (statusText 200), exitStatus := 0,
            services := c.services.set k ((c.services.get ⟨k, hk⟩).setState State.freeze "") }) ∧
      (∃ (k : Nat) (hk : k < c.services.length),
        (c.services.get ⟨k, hk⟩).forMe hosts = true ∧
        (c.services.get ⟨k, hk⟩).service = target ∧
        handleSession c hosts hostname ["/state/unfreeze", target] =
          { reply := Reply.text (statusText 200), exitStatus := 0,
            services := c.services.set k ((c.services.get ⟨k, hk⟩).setState State.ok "") })) := by
  have hf : findRoute "/state/freeze" = some Route.freeze := by decide
  have hu : findRoute "/state/unfreeze" = some Route.unfreeze := by decide
  constructor
  · intro hall
    have hnf := (setFirstMatch_none_iff c.services hosts target State.freeze "").mpr hall
    have hno := (setFirstMatch_none_iff c.services hosts target State.ok "").mpr hall
    constructor
    · simp [handleSession, hf, runRoute, FreezeService, freezeStateService, hnf]
    · simp [handleSession, hu, runRoute, UnfreezeService, freezeStateService, hno]
  · intro hex
    constructor
    · rcases setFirstMatch_isSome c.services hosts target State.freeze "" hex with ⟨l2, h2⟩
      rcases setFirstMatch_some c.services hosts target State.freeze "" l2 h2 with ⟨k, hk, p1, p2, p3⟩
      exact ⟨k, hk, p1, p2, by
        simp [handleSession, hf, runRoute, FreezeService, freezeStateService, h2, p3]⟩
    · rcases setFirstMatch_isSome c.services hosts target State.ok "" hex with ⟨l2, h2⟩
      rcases setFirstMatch_some c.services hosts target State.ok "" l2 h2 with ⟨k, hk, p1, p2, p3⟩
      exact ⟨k, hk, p1, p2, by
        simp [handleSession, hu, runRoute, UnfreezeService, freezeStateService, h2, p3]⟩

theorem freeze_unfreeze_sets_named_witness :
    (∃ (k : Nat) (hk : k < sampleCfg.services.length),
      (sampleCfg.services.get ⟨k, hk⟩).forMe ["m1"] = true ∧
      (sampleCfg.services.get ⟨k, hk⟩).service = "svc" ∧
      handleSession sampleCfg ["m1"] "m1" ["/state/freeze", "svc"] =
        { reply := Reply.text (statusText 200), exitStatus := 0,
          services := sampleCfg.services.set 0
            ((sampleCfg.services.get ⟨k, hk⟩).setState State.freeze "") }) ∧
    (∃ (k : Nat) (hk : k < sampleCfg.services.length),
      (sampleCfg.services.get ⟨k, hk⟩).forMe ["m1"] = true ∧
      (sampleCfg.services.get ⟨k, hk⟩).service = "svc" ∧
      handleSession sampleCfg ["m1"] "m1" ["/state/unfreeze", "svc"] =
        { reply := Reply.text (statusText 200), exitStatus := 0,
          services := sampleCfg.services.set 0
            ((sampleCfg.services.get ⟨k, hk⟩).setState State.ok "") }) := by
  have h := (freeze_unfreeze_sets_named sampleCfg ["m1"] "m1" "svc").2 (by decide)
  have hlen : sampleCfg.services.length = 1 := rfl
  constructor
  · rcases h.1 with ⟨k, hk, p1, p2, p3⟩
    have hk0 : k = 0 := by omega
    subst hk0
    exact ⟨0, hk, p1, p2, p3⟩
  · rcases h.2 with ⟨k, hk, p1, p2, p3⟩
    have hk0 : k = 0 := by omega
    subst hk0
    exact ⟨0, hk, p1, p2, p3⟩

/-- C1 (amended): a rollback whose hash argument is not decodable hex (odd
length or a non-hex character) is rejected with 406 Not Acceptable and the
services are unchanged, so no SetState occurs; hex arguments of any even
length, 40 or not, pass this validation. -/
theorem rollback_rejects_invalid_hex (c : Config) (hosts : List String)
    (hostname target hash : String) (rest : List String)
    (h : hexDecodeOk hash = false) :
    handleSession c hosts hostname ("/state/rollback" :: target :: hash :: rest) =
      { reply := Reply.text (statusText 406 ++ ", not a valid git hash: " ++ hash),
        exitStatus := 406, services := c.services } := by
  have hr : findRoute "/state/rollback" = some Route.rollback := by decide
  simp [handleSession, hr, runRoute, RollbackService, h]

theorem rollback_rejects_invalid_hex_witness :
    hexDecodeOk "zz" = false ∧
    handleSession sampleCfg ["m1"] "m1" ["/state/rollback", "svc", "zz"] =
      { reply := Reply.text (statusText 406 ++ ", not a valid git hash: " ++ "zz"),
        exitStatus := 406, services := sampleCfg.services } :=
  ⟨by decide, rollback_rejects_invalid_hex sampleCfg ["m1"] "m1" "svc" "zz" [] (by decide)⟩

/-- C1 counterexample: "abcdef" is hex-decodable but is not a 40-character
hash; the rollback command is nevertheless accepted, the session exits 0,
and SetState(ROLLBACK, "abcdef") does occur on the named service. -/
theorem rollback_accepts_non40_hex :
    hexDecodeOk "abcdef" = true ∧ "abcdef".length ≠ 40 ∧
    (handleSession sampleCfg ["m1"] "m1" ["/state/rollback", "svc", "abcdef"]).exitStatus = 0 ∧
    (handleSession sampleCfg ["m1"] "m1" ["/state/rollback", "svc", "abcdef"]).services =
      [{ machine := "m1", service := "svc", state := State.rollback,
         info := "abcdef", change := 1 }] := by
  decide

theorem listService_status (c : Config) (hosts : List String) (cmd : List String) :
    (ListService c hosts cmd).exitStatus = 404 ∨ (ListService c hosts cmd).exitStatus = 0 := by
  simp only [ListService]
  split
  · exact Or.inl rfl
  · exact Or.inr rfl

theorem listService_json (c : Config) (hosts : List String) (cmd : List String)
    (h : (ListService c hosts cmd).exitStatus = 0) :
    ∃ p, (ListService c hosts cmd).reply = Reply.json p := by
  revert h
  simp only [ListService]
  split
  · intro h
    simp at h
  · intro _
    exact ⟨_, rfl⟩

theorem freezeState_status (c : Config) (cmd : List String) (st : State)
    (hosts : List String) :
    (freezeStateService c cmd st hosts).exitStatus = 406 ∨
    (freezeStateService c cmd st hosts).exitStatus = 0 ∨
    (freezeStateService c cmd st hosts).exitStatus = 404 := by
  rcases cmd with _ | ⟨a, _ | ⟨b, r⟩⟩
  · simp [freezeStateService]
  · simp [freezeStateService]
  · cases hsm : setFirstMatch c.services hosts b st "" <;>
      simp [freezeStateService, hsm]

theorem rollbackService_status (c : Config) (cmd : List String) (hosts : List String) :
    (RollbackService c cmd hosts).exitStatus = 0 ∨
    (RollbackService c cmd hosts).exitStatus = 406 ∨
    (RollbackService c cmd hosts).exitStatus = 404 := by
  rcases cmd with _ | ⟨a, _ | ⟨b, _ | ⟨h3, r⟩⟩⟩
  · simp [RollbackService]
  · simp [RollbackService]
  · simp [RollbackService]
  · by_cases hh : hexDecodeOk h3 = false
    · simp [RollbackService, hh]
    · cases hsm : setFirstMatch c.services hosts b State.rollback h3 <;>
        simp [RollbackService, hh, hsm]

/-- C6 (amended): every control-plane session ends with an exit status in
the HTTP-style set; an empty command is 400, an unrecognized first token is
404, successful list replies are JSON with status 0, a freeze or unfreeze
without a service argument is 406, a rollback with a non-hex hash is 406,
but a rollback command with fewer than three tokens ends the session with
status 0 and no reply rather than 406. -/
theorem session_status_conventions :
    (∀ (c : Config) (hosts : List String) (hn : String) (cmd : List String),
      (handleSession c hosts hn cmd).exitStatus ∈ ([0, 400, 404, 406, 500] : List Nat)) ∧
    (∀ (c : Config) (hosts : List String) (hn : String),
      (handleSession c hosts hn []).exitStatus = 400) ∧
    (∀ (c : Config) (hosts : List String) (hn tok : String) (rest : List String),
      findRoute tok = none → (handleSession c hosts hn (tok :: rest)).exitStatus = 404) ∧
    (∀ (c : Config) (hn : String),
      (ListMachines c hn).exitStatus = 0 ∧ ∃ p, (ListMachines c hn).reply = Reply.json p) ∧
    (∀ (c : Config) (hosts : List String) (cmd : List String),
      (ListService c hosts cmd).exitStatus = 0 →
      ∃ p, (ListService c hosts cmd).reply = Reply.json p) ∧
    (∀ (c : Config) (hosts : List String) (hn : String),
      (handleSession c hosts hn ["/state/freeze"]).exitStatus = 406) ∧
    (∀ (c : Config) (hosts : List String) (hn target hash : String) (rest : List String),
      hexDecodeOk hash = false →
      (handleSession c hosts hn ("/state/rollback" :: target :: hash :: rest)).exitStatus = 406) ∧
    (∀ (c : Config) (hosts : List String) (hn target : String),
      (handleSession c hosts hn ["/state/rollback", target]).exitStatus = 0 ∧
      (handleSession c hosts hn ["/state/rollback", target]).reply = Reply.empty) := by
  have hfz : findRoute "/state/freeze" = some Route.freeze := by decide
  have hrb : findRoute "/state/rollback" = some Route.rollback := by decide
  refine ⟨?_, ?_, ?_, ?_, ?_, ?_, ?_, ?_⟩
  · intro c hosts hn cmd
    rcases cmd with _ | ⟨tok, rest⟩
    · simp [handleSession]
    · cases hfr : findRoute tok with
      | none => simp [handleSession, hfr]
      | some r =>
        cases r
        · simp [handleSession, hfr, runRoute, ListMachines]
        · rcases listService_status c hosts (tok :: rest) with h | h <;>
            simp [handleSession, hfr, runRoute, h]
        · rcases freezeState_status c (tok :: rest) State.freeze hosts with h | h | h <;>
            simp [handleSession, hfr, runRoute, FreezeService, h]
        · rcases freezeState_status c (tok :: rest) State.ok hosts with h | h | h <;>
            simp [handleSession, hfr, runRoute, UnfreezeService, h]
        · rcases rollbackService_status c (tok :: rest) hosts with h | h | h <;>
            simp [handleSession, hfr, runRoute, h]
  · intro c hosts hn
    simp [handleSession]
  · intro c hosts hn tok rest hfr
    simp [handleSession, hfr]
  · intro c hn
    exact ⟨rfl, _, rfl⟩
  · exact listService_json
  · intro c hosts hn
    simp [handleSession, hfz, runRoute, FreezeService, freezeStateService]
  · intro c hosts hn target hash rest hh
    simp [handleSession, hrb, runRoute, RollbackService, hh]
  · intro c hosts hn target
    constructor
    · simp [handleSession, hrb, runRoute, RollbackService]
    · simp [handleSession, hrb, runRoute, RollbackService]

theorem session_status_conventions_witness :
    (handleSession sampleCfg ["m1"] "m1" ["/bogus"]).exitStatus = 404 ∧
    (handleSession sampleCfg ["m1"] "m1" ["/state/rollback", "svc", "zz", "x"]).exitStatus = 406 :=
  ⟨session_status_conventions.2.2.1 sampleCfg ["m1"] "m1" "/bogus" [] (by decide),
   session_status_conventions.2.2.2.2.2.2.1 sampleCfg ["m1"] "m1" "svc" "zz" ["x"] (by decide)⟩

/-- C6 counterexample: a rollback command with fewer than three tokens ends
the session with status 0 and no reply, not with a 406 malformed-argument
status, even when the named service exists on this host. -/
theorem rollback_short_command_status_zero :
    (handleSession sampleCfg ["m1"] "m1" ["/state/rollback", "svc"]).exitStatus = 0 ∧
    (handleSession sampleCfg ["m1"] "m1" ["/state/rollback", "svc"]).exitStatus ≠ 406 ∧
    (handleSession sampleCfg ["m1"] "m1" ["/state/rollback", "svc"]).reply = Reply.empty ∧
    (handleSession sampleCfg ["m1"] "m1" ["/state/rollback", "svc"]).services =
      sampleCfg.services := by
  decide

theorem startupAfterCheckout_snd (env : StartupEnv) (s : Service) :
    (startupAfterCheckout env s).2 = true ↔ ∃ n, env.bindmountRes s = Except.ok n := by
  unfold startupAfterCheckout
  split
  · rename_i e heq
    simp [heq]
  · rename_i mounts heq
    rw [heq]
    refine ⟨fun _ => ⟨mounts, rfl⟩, fun _ => ?_⟩
    split
    · split <;> rfl
    · rfl

/-- C2 (amended): during the startup loop of run, for a service of this
host, a failing Checkout or a failing bind-mount Publish sets that service
to BROKEN and spawns no worker; a failing package install is tolerated (that
service is skipped without a worker) but the service is not marked BROKEN;
and no per-service failure aborts the loop: the services around any one
service are processed exactly as they would be on their own. -/
theorem startup_failure_policy (env : StartupEnv) (g : Service) (hosts : List String)
    (serv : Service) (hme : serv.forMe hosts = true) :
    (∀ e, ((serv.merge g).pkg = "" ∨ env.installErr (serv.merge g) = none) →
      env.checkoutErr (serv.merge g) = some e →
      (startupStep env g hosts serv).1.state = State.broken ∧
      (startupStep env g hosts serv).2 = false) ∧
    (∀ e, ((serv.merge g).pkg = "" ∨ env.installErr (serv.merge g) = none) →
      env.checkoutErr (serv.merge g) = none →
      env.bindmountRes (serv.merge g) = Except.error e →
      (startupStep env g hosts serv).1.state = State.broken ∧
      (startupStep env g hosts serv).2 = false) ∧
    ((serv.merge g).pkg ≠ "" → (∃ e, env.installErr (serv.merge g) = some e) →
      startupStep env g hosts serv = (serv.merge g, false)) ∧
    (∀ l1 l2 : List Service,
      (runStartup env g hosts (l1 ++ serv :: l2)).services =
        (runStartup env g hosts l1).services ++
          (startupStep env g hosts serv).1 :: (runStartup env g hosts l2).services) := by
  refine ⟨?_, ?_, ?_, ?_⟩
  · intro e hinst hco
    rcases hinst with hpkg | hin
    · simp [startupStep, hme, startupService, hpkg, hco, Service.setState]
    · by_cases hpkg : (serv.merge g).pkg = ""
      · simp [startupStep, hme, startupService, hpkg, hco, Service.setState]
      · simp [startupStep, hme, startupService, hpkg, hin, hco, Service.setState]
  · intro e hinst hco hbm
    rcases hinst with hpkg | hin
    · simp [startupStep, hme, startupService, hpkg, hco, startupAfterCheckout, hbm,
        Service.setState]
    · by_cases hpkg : (serv.merge g).pkg = ""
      · simp [startupStep, hme, startupService, hpkg, hco, startupAfterCheckout, hbm,
          Service.setState]
      · simp [startupStep, hme, startupService, hpkg, hin, hco, startupAfterCheckout, hbm,
          Service.setState]
  · rintro hpkg ⟨e, hin⟩
    simp [startupStep, hme, startupService, hpkg, hin]
  · intro l1 l2
    simp [runStartup, List.map_append]

theorem startup_failure_policy_witness :
    (startupStep checkoutFailEnv {} ["m1"] { machine := "m1" }).1.state = State.broken ∧
    (startupStep checkoutFailEnv {} ["m1"] { machine := "m1" }).2 = false :=
  (startup_failure_policy checkoutFailEnv {} ["m1"] { machine := "m1" } (by decide)).1
    "connection refused" (Or.inl rfl) rfl

/-- C2 counterexample: a service of this host whose package install fails is
skipped (no worker) but its state stays OK; it is not marked BROKEN. -/
theorem install_failure_not_marked_broken :
    ({ machine := "m1", pkg := "tmux" } : Service).forMe ["m1"] = true ∧
    (startupStep installFailEnv {} ["m1"] { machine := "m1", pkg := "tmux" }).2 = false ∧
    (startupStep installFailEnv {} ["m1"] { machine := "m1", pkg := "tmux" }).1.state = State.ok ∧
    State.ok ≠ State.broken := by
  decide

/-- C4 (amended): a trackUpstream worker goroutine is spawned for a service
iff its machine is in the host identity set (the OS hostname plus the -h
aliases) and additionally the package install (when a package is set), the
Checkout, and the bind-mount publication all succeed. -/
theorem worker_spawn_iff (env : StartupEnv) (g : Service) (hostname : String)
    (aliases : List String) (serv : Service) :
    (startupStep env g (hostIdentitySet hostname aliases) serv).2 = true ↔
      (serv.forMe (hostIdentitySet hostname aliases) = true ∧
       ((serv.merge g).pkg = "" ∨ env.installErr (serv.merge g) = none) ∧
       env.checkoutErr (serv.merge g) = none ∧
       ∃ n, env.bindmountRes (serv.merge g) = Except.ok n) := by
  by_cases hme : serv.forMe (hostIdentitySet hostname aliases) = true
  · by_cases hpkg : (serv.merge g).pkg = ""
    · cases hco : env.checkoutErr (serv.merge g) with
      | none => simp [startupStep, hme, startupService, hpkg, hco, startupAfterCheckout_snd]
      | some e => simp [startupStep, hme, startupService, hpkg, hco]
    · cases hin : env.installErr (serv.merge g) with
      | none =>
        cases hco : env.checkoutErr (serv.merge g) with
        | none => simp [startupStep, hme, startupService, hpkg, hin, hco, startupAfterCheckout_snd]
        | some e => simp [startupStep, hme, startupService, hpkg, hin, hco]
      | some e => simp [startupStep, hme, startupService, hpkg, hin]
  · have hme2 : serv.forMe (hostIdentitySet hostname aliases) = false :=
      Bool.not_eq_true _ ▸ Bool.of_not_eq_true hme
    simp [startupStep, hme2]

theorem worker_spawn_iff_witness :
    (startupStep okStartupEnv {} (hostIdentitySet "m1" []) { machine := "m1" }).2 = true :=
  (worker_spawn_iff okStartupEnv {} "m1" [] { machine := "m1" }).mpr
    ⟨by decide, Or.inl rfl, rfl, 0, rfl⟩

/-- C4 counterexample: a service whose machine is in the host identity set
but whose Checkout fails gets no worker goroutine, so membership alone is
not equivalent to a worker being spawned. -/
theorem matching_service_without_worker :
    ({ machine := "m1" } : Service).forMe (hostIdentitySet "m1" []) = true ∧
    (startupStep checkoutFailEnv {} (hostIdentitySet "m1" []) { machine := "m1" }).2 = false := by
  decide

theorem bootstrapPhase_error_ne_hup (exec : ExecContext) (w : RunWorld) (e : RunErr)
    (h : bootstrapPhase exec w = Except.error e) : e ≠ RunErr.hup := by
  simp only [bootstrapPhase] at h
  split at h
  · simp at h
  · split at h
    · injection h with h2
      subst h2
      simp
    · split at h
      · split at h
        · injection h with h2
          subst h2
          simp
        · simp at h
      · simp at h

theorem startupPhases_error_ne_hup (exec : ExecContext) (w : RunWorld) (e : RunErr)
    (h : startupPhases exec w = Except.error e) : e ≠ RunErr.hup := by
  simp only [startupPhases] at h
  repeat' split at h
  all_goals first
    | (injection h with h2; subst h2; simp; done)
    | (injection h with h2; subst h2; apply bootstrapPhase_error_ne_hup <;> assumption)
    | injection h

/-- C3: the process exit status is 0 on a clean exit (a SIGINT or SIGTERM
shutdown, or the early return when no service matches this host), 2 when
shutdown was triggered by a hangup signal — run returns the ErrHUP sentinel
exactly when the received signal was SIGHUP — and non-zero for any startup
failure, which is never the hangup sentinel. -/
theorem exit_code_spec (exec : ExecContext) (w : RunWorld) (sig : Signal) :
    (∀ r, runModel exec w sig = RunOutcome.noServices r →
      runResult (runModel exec w sig) = none ∧
      exitCode (runResult (runModel exec w sig)) = 0) ∧
    (∀ r sig2, runModel exec w sig = RunOutcome.shutdown r sig2 →
      sig2 = sig ∧
      (runResult (runModel exec w sig) = some RunErr.hup ↔ sig = Signal.sighup) ∧
      exitCode (runResult (runModel exec w sig)) = (if sig = Signal.sighup then 2 else 0)) ∧
    (∀ e, runModel exec w sig = RunOutcome.startupFailure e →
      e ≠ RunErr.hup ∧ exitCode (runResult (runModel exec w sig)) ≠ 0) := by
  refine ⟨?_, ?_, ?_⟩
  · intro r h
    rw [h]
    simp [runResult, exitCode]
  · intro r sig2 h
    have hs : sig2 = sig := by
      unfold runModel at h
      split at h
      · simp at h
      · split at h
        · simp at h
        · injection h with h2 h3
          exact h3.symm
    subst hs
    rw [h]
    refine ⟨rfl, ?_, ?_⟩
    · by_cases hsig : sig2 = Signal.sighup <;> simp [runResult, hsig]
    · by_cases hsig : sig2 = Signal.sighup <;> simp [runResult, exitCode, hsig]
  · intro e h
    have he : startupPhases exec w = Except.error e := by
      unfold runModel at h
      split at h
      · injection h with h2
        subst h2
        assumption
      · split at h <;> simp at h
    refine ⟨startupPhases_error_ne_hup exec w e he, ?_⟩
    rw [h]
    cases e <;> simp [runResult, exitCode]

theorem exit_code_spec_witness :
    runResult (runModel plainExec emptyWorld Signal.sigint) = none ∧
    exitCode (runResult (runModel plainExec emptyWorld Signal.sigint)) = 0 :=
  (exit_code_spec plainExec emptyWorld Signal.sigint).1
    { services := [], workers := [], servCnt := 0 } (by decide)

theorem runStartup_workers_nil (env : StartupEnv) (g : Service) (hosts : List String)
    (l : List Service) (h : (l.filter (fun v => v.forMe hosts)).length = 0) :
    (runStartup env g hosts l).workers = [] := by
  have hnil : l.filter (fun v => v.forMe hosts) = [] := List.length_eq_zero.mp h
  have hall := List.filter_eq_nil_iff.mp hnil
  have hfil : (l.map (startupStep env g hosts)).filter (fun p => p.2) = [] := by
    apply List.filter_eq_nil_iff.mpr
    intro pr hpr
    rcases List.mem_map.mp hpr with ⟨v, hv, rfl⟩
    have hnv : v.forMe hosts = false := by
      cases hfm : v.forMe hosts
      · rfl
      · exact absurd hfm (hall v hv)
    simp [startupStep, hnv]
  simp [runStartup, hfil]

/-- C9: when no configured service matches the host identity set, run logs
and returns nil right after startup, independent of any later signal: the
outcome is the early no-services return, the result is nil with exit status
0, and no worker goroutine was spawned. -/
theorem no_matching_service_early_clean_exit (exec : ExecContext) (w : RunWorld)
    (c2 : Config) (exec2 : ExecContext)
    (hp : startupPhases exec w = Except.ok (c2, exec2))
    (hcnt : (c2.services.filter (fun v => v.forMe exec2.hosts)).length = 0) :
    (∀ sig, runModel exec w sig =
      RunOutcome.noServices (runStartup w.startup c2.global exec2.hosts c2.services)) ∧
    (∀ sig, runResult (runModel exec w sig) = none ∧
      exitCode (runResult (runModel exec w sig)) = 0) ∧
    (runStartup w.startup c2.global exec2.hosts c2.services).workers = [] := by
  have hcnt2 : (runStartup w.startup c2.global exec2.hosts c2.services).servCnt = 0 := by
    simp [runStartup, hcnt]
  have hrm : ∀ sig, runModel exec w sig =
      RunOutcome.noServices (runStartup w.startup c2.global exec2.hosts c2.services) := by
    intro sig
    unfold runModel
    rw [hp]
    simp [hcnt2]
  refine ⟨hrm, ?_, runStartup_workers_nil _ _ _ _ hcnt⟩
  intro sig
  rw [hrm sig]
  exact ⟨rfl, rfl⟩

theorem no_matching_service_early_clean_exit_witness :
    runModel plainExec emptyWorld Signal.sigterm =
      RunOutcome.noServices
        (runStartup emptyWorld.startup ({} : Config).global plainExec.hosts
          ({} : Config).services) ∧
    (runStartup emptyWorld.startup ({} : Config).global plainExec.hosts
      ({} : Config).services).workers = [] :=
  ⟨(no_matching_service_early_clean_exit plainExec emptyWorld {} plainExec
      (by decide) (by decide)).1 Signal.sigterm,
   (no_matching_service_early_clean_exit plainExec emptyWorld {} plainExec
      (by decide) (by decide)).2.2⟩

/-- C8 (amended): the worker tick period is the -d flag duration, whose
default "30s" parses to 30 seconds (not 5 minutes); a configured duration
strictly below 5 seconds is fatal at startup, so no worker ever runs with a
tick period under 5 seconds, and the default passes the gate. -/
theorem duration_lower_bound :
    (∀ (d : Nat) (services : List Service),
      d < fiveSecondsNanos → oldMainWorkers d services = none) ∧
    (∀ (d : Nat) (services : List Service) (l : List (Service × Nat)),
      oldMainWorkers d services = some l → ∀ p ∈ l, fiveSecondsNanos ≤ p.2) ∧
    flagDurationDefault = "30s" ∧ defaultDurationNanos = 30 * 1000000000 ∧
    durationFatal defaultDurationNanos = false := by
  refine ⟨?_, ?_, rfl, rfl, by decide⟩
  · intro d services hd
    simp [oldMainWorkers, durationFatal, hd]
  · intro d services l h p hp
    unfold oldMainWorkers at h
    split at h
    · simp at h
    · rename_i hnf
      injection h with h2
      subst h2
      rcases List.mem_map.mp hp with ⟨s, hs, rfl⟩
      simp only [durationFatal, decide_eq_true_eq] at hnf
      omega

theorem duration_lower_bound_witness :
    oldMainWorkers 1000000000 [] = none :=
  duration_lower_bound.1 1000000000 [] (by decide)

/-- C8 counterexample: the -d flag default is "30s", which parses to 30
seconds, not to the 5 minutes the claim states. -/
theorem default_duration_not_five_minutes :
    flagDurationDefault = "30s" ∧ defaultDurationNanos = 30 * 1000000000 ∧
    defaultDurationNanos ≠ 300 * 1000000000 :=
  ⟨rfl, rfl, by decide⟩

theorem bootstrapPhase_checkout_error (exec : ExecContext) (w : RunWorld) (e : String)
    (hU : exec.upstream ≠ "") (he : w.bootCheckoutErr = some e) :
    bootstrapPhase exec w = Except.error (RunErr.repoPull w.hostname exec.upstream e) := by
  unfold bootstrapPhase selfService
  simp [hU, he]

theorem bootstrapPhase_ok (exec : ExecContext) (w : RunWorld)
    (hU : exec.upstream ≠ "") (hco : w.bootCheckoutErr = none)
    (hpull : exec.pull = true → w.bootPullErr = none) :
    bootstrapPhase exec w = Except.ok
      ({ exec with configSource := pathJoin (pathJoin (pathJoin exec.mount exec.dir) exec.dir) exec.configSource },
       some { machine := w.hostname, upstream := exec.upstream, branch := exec.branch,
              mount := exec.mount, service := exec.dir }) := by
  unfold bootstrapPhase selfService
  cases hp : exec.pull
  · simp [hU, hco, hp]
  · simp [hU, hco, hp, hpull hp]

/-- C7: when a bootstrap upstream is supplied, run synthesizes a
self-Service and Checkouts it before anything else (a Checkout failure
aborts startup as a RepoPullError before the config is ever read), then
re-targets the config path into the checked-out tree before the config is
read and parsed, and appends the self-Service to the parsed services, so
the same startup loop and worker machinery reconcile it like any other
service. -/
theorem bootstrap_self_service (exec : ExecContext) (w : RunWorld) (sig : Signal)
    (hroot : w.euid = 0) (hcfg : exec.configSource ≠ "") (hU : exec.upstream ≠ "") :
    ∃ self, selfService w.hostname exec.upstream exec.branch exec.mount exec.dir = some self ∧
      self.machine = w.hostname ∧ self.upstream = exec.upstream ∧
      (∀ e, w.bootCheckoutErr = some e →
        runModel exec w sig =
          RunOutcome.startupFailure (RunErr.repoPull self.machine self.upstream e)) ∧
      (w.bootCheckoutErr = none → (exec.pull = true → w.bootPullErr = none) →
        ∀ doc c,
          w.readConfig (pathJoin (pathJoin (pathJoin self.mount self.service) exec.dir) exec.configSource) = Except.ok doc →
          w.parseConfig doc = Except.ok c →
          w.validateErr c = none → w.keyLoadErr = none →
          w.sshListenErr = none → w.monListenErr = none →
          startupPhases exec w = Except.ok
            ({ c with services := c.services ++ [self] },
             { exec with configSource := pathJoin (pathJoin (pathJoin self.mount self.service) exec.dir) exec.configSource }) ∧
          runModel exec w sig =
            (if (runStartup w.startup c.global exec.hosts (c.services ++ [self])).servCnt = 0
             then RunOutcome.noServices (runStartup w.startup c.global exec.hosts (c.services ++ [self]))
             else RunOutcome.shutdown (runStartup w.startup c.global exec.hosts (c.services ++ [self])) sig)) := by
  refine ⟨{ machine := w.hostname, upstream := exec.upstream, branch := exec.branch,
            mount := exec.mount, service := exec.dir }, ?_, rfl, rfl, ?_, ?_⟩
  · simp [selfService, hU]
  · intro e he
    unfold runModel startupPhases
    rw [bootstrapPhase_checkout_error exec w e hU he]
    simp [hroot, hcfg]
  · intro hco hpull doc c hread hparse hvalid hkeys hssh hmon
    dsimp only at hread
    have hsp : startupPhases exec w = Except.ok
        ({ c with services := c.services ++
            [{ machine := w.hostname, upstream := exec.upstream, branch := exec.branch,
               mount := exec.mount, service := exec.dir }] },
         { exec with configSource := pathJoin (pathJoin (pathJoin exec.mount exec.dir) exec.dir) exec.configSource }) := by
      unfold startupPhases
      rw [bootstrapPhase_ok exec w hU hco hpull]
      simp [hroot, hcfg, hread, hparse, hvalid, hkeys, hssh, hmon]
    refine ⟨hsp, ?_⟩
    unfold runModel
    rw [hsp]

theorem bootstrap_self_service_witness :
    runModel bootExec emptyWorld Signal.sigint =
      RunOutcome.noServices
        (runStartup emptyWorld.startup ({} : Config).global bootExec.hosts
          (({} : Config).services ++
            [{ machine := "h1", upstream := "https://example.org/repo.git",
               branch := "main", mount := "/tmp/boot", service := "gitopper" }])) := by
  have h := bootstrap_self_service bootExec emptyWorld Signal.sigint rfl (by decide) (by decide)
  rcases h with ⟨self, hsel, hm, hu, hfail, hok⟩
  have hself : self = { machine := "h1", upstream := "https://example.org/repo.git",
                        branch := "main", mount := "/tmp/boot", service := "gitopper" } := by
    have h2 : selfService "h1" "https://example.org/repo.git" "main" "/tmp/boot" "gitopper" =
        some self := hsel
    simp [selfService] at h2
    exact h2.symm
  subst hself
  have h5 := hok rfl (fun _ => rfl) "" {} rfl rfl rfl rfl rfl rfl
  rw [h5.2]
  decide
